import Mathlib

/-!
Shallow embedding of the ThreadSmith thread-reconstruction core:
`src/twitter_client.py` (TwitterClient), `src/thread_manager.py`
(ThreadManager), `src/storage.py` (ThreadStorage) and the monolithic
`threadsmith.py` (ThreadSmith).  HTTP traffic is modelled by explicit
oracle inputs: each outbound request consumes one element of a response
stream, `Except.error` standing for a raised network exception and
`Except.ok` for a received response.  Time is modelled in whole epoch
seconds; `time.sleep d` makes the clock advance by exactly `d`.
-/

namespace ThreadSmith

/-- A tweet object as returned by the API (`data` entries).  Optional
fields model Python `dict.get` on keys that may be absent. -/
structure Tweet where
  id : String
  text : Option String
  author_id : Option String
  author_username : Option String
  conversation_id : Option String
  created_at : Option String
deriving DecidableEq

/-- Sort key used by `sorted(tweets, key=lambda x: x.get('created_at', ''))`. -/
def createdKey (t : Tweet) : String :=
  t.created_at.getD ""

/-- Chronological (lexicographic ISO-8601) order on tweets. -/
def tweetLE (a b : Tweet) : Prop :=
  createdKey a ≤ createdKey b

instance : DecidableRel tweetLE := fun a b =>
  inferInstanceAs (Decidable (createdKey a ≤ createdKey b))

instance : IsTotal Tweet tweetLE :=
  ⟨fun a b => le_total (createdKey a) (createdKey b)⟩

instance : IsTrans Tweet tweetLE :=
  ⟨fun _ _ _ hab hbc => le_trans hab hbc⟩

/-- Embedding of `sorted(tweets, key=lambda x: x.get('created_at', ''))`: a stable
sort by the `created_at` key (Python's sort is stable; insertion sort
with this order is stable in the same sense). -/
def sortByCreated (l : List Tweet) : List Tweet :=
  List.insertionSort tweetLE l

/-- One HTTP response of the recent-search endpoint: status code and the
optional `data` array of the JSON body. -/
structure SearchResp where
  status : Nat
  data : Option (List Tweet)
deriving DecidableEq

instance instDecEqExcept {ε α : Type} [DecidableEq ε] [DecidableEq α] :
    DecidableEq (Except ε α)
  | .error a, .error b =>
    if h : a = b then .isTrue (by rw [h])
    else .isFalse (by intro hc; cases hc; exact h rfl)
  | .error _, .ok _ => .isFalse (by intro h; cases h)
  | .ok _, .error _ => .isFalse (by intro h; cases h)
  | .ok a, .ok b =>
    if h : a = b then .isTrue (by rw [h])
    else .isFalse (by intro hc; cases hc; exact h rfl)

/-- One attempt of `search_conversation`: the outcome of the
`_check_and_refresh_token` guard for this attempt, and the network
outcome of the search request (`Except.error` = raised exception). -/
structure SearchAttempt where
  tokenOk : Bool
  resp : Except Unit SearchResp
deriving DecidableEq

/-- Embedding of `TwitterClient.search_conversation` (twitter_client.py 247-285),
abstracting the HTTP layer into a stream of attempts; the recursive
retry on HTTP 429 consumes the next attempt.  Returns the list of
tweets handed back to the caller. -/
def searchConversation : List SearchAttempt → List Tweet
  | [] => []
  | a :: rest =>
    if a.tokenOk = false then []
    else
      match a.resp with
      | .error _ => []
      | .ok r =>
        if r.status = 200 then
          match r.data with
          | some ts => sortByCreated ts
          | none => []
        else if r.status = 429 then searchConversation rest
        else []

/-- One HTTP response of the single-tweet endpoint. -/
structure TweetResp where
  status : Nat
  data : Option Tweet
deriving DecidableEq

/-- One attempt of `fetch_single_tweet`. -/
structure FetchAttempt where
  tokenOk : Bool
  resp : Except Unit TweetResp
deriving DecidableEq

/-- Embedding of `TwitterClient.fetch_single_tweet` (twitter_client.py 213-245): on
200 return the `data` field when present, retry on 429, and `None` on
every other outcome. -/
def fetchSingleTweet : List FetchAttempt → Option Tweet
  | [] => none
  | a :: rest =>
    if a.tokenOk = false then none
    else
      match a.resp with
      | .error _ => none
      | .ok r =>
        if r.status = 200 then r.data
        else if r.status = 429 then fetchSingleTweet rest
        else none

/-- Embedding of `ThreadManager.fetch_thread` (thread_manager.py 22-52): try the
conversation search; on an empty result fall back to the single-tweet
fetch, wrapping a hit into a length-1 list. -/
def fetchThread (sa : List SearchAttempt) (fa : List FetchAttempt) : List Tweet :=
  let threadTweets := searchConversation sa
  if threadTweets.isEmpty then
    match fetchSingleTweet fa with
    | some t => [t]
    | none => []
  else threadTweets

/-- Embedding of `ThreadSmith.fetch_thread` (threadsmith.py 257-291), the monolithic
resolver: conversation search only, retry on 429, empty list on every
failure; it has no single-tweet fallback. -/
def fetchThreadMono : List SearchAttempt → List Tweet
  | [] => []
  | a :: rest =>
    if a.tokenOk = false then []
    else
      match a.resp with
      | .error _ => []
      | .ok r =>
        if r.status = 200 then
          match r.data with
          | some ts => sortByCreated ts
          | none => []
        else if r.status = 429 then fetchThreadMono rest
        else []

/-- Every list produced by `searchConversation` is sorted by `created_at`. -/
theorem sorted_searchConversation (sa : List SearchAttempt) :
    List.Sorted tweetLE (searchConversation sa) := by
  induction sa with
  | nil => exact List.sorted_nil
  | cons a rest ih =>
    simp only [searchConversation]
    by_cases hTok : a.tokenOk = false
    · simp [hTok]
    · simp only [hTok, if_false]
      match a.resp with
      | .error _ => exact List.sorted_nil
      | .ok r =>
        by_cases h200 : r.status = 200
        · simp only [h200, if_true]
          match r.data with
          | some ts => exact List.sorted_insertionSort tweetLE ts
          | none => exact List.sorted_nil
        · by_cases h429 : r.status = 429
          · simpa [h200, h429] using ih
          · simp [h200, h429]

/-- Every list produced by the monolithic resolver is sorted by `created_at`. -/
theorem sorted_fetchThreadMono (sa : List SearchAttempt) :
    List.Sorted tweetLE (fetchThreadMono sa) := by
  induction sa with
  | nil => exact List.sorted_nil
  | cons a rest ih =>
    simp only [fetchThreadMono]
    by_cases hTok : a.tokenOk = false
    · simp [hTok]
    · simp only [hTok, if_false]
      match a.resp with
      | .error _ => exact List.sorted_nil
      | .ok r =>
        by_cases h200 : r.status = 200
        · simp only [h200, if_true]
          match r.data with
          | some ts => exact List.sorted_insertionSort tweetLE ts
          | none => exact List.sorted_nil
        · by_cases h429 : r.status = 429
          · simpa [h200, h429] using ih
          · simp [h200, h429]

/-- C1: every list returned by the thread resolver — by
`search_conversation`, by `ThreadManager.fetch_thread`, and by the
monolithic `ThreadSmith.fetch_thread` — is sorted non-decreasing by
`created_at` (in particular whenever the conversation search succeeds,
the server's descending recency order has been inverted). -/
theorem c1_resolve_sorted :
    (∀ sa : List SearchAttempt, List.Sorted tweetLE (searchConversation sa)) ∧
    (∀ (sa : List SearchAttempt) (fa : List FetchAttempt),
        List.Sorted tweetLE (fetchThread sa fa)) ∧
    (∀ sa : List SearchAttempt, List.Sorted tweetLE (fetchThreadMono sa)) := by
  refine ⟨sorted_searchConversation, ?_, sorted_fetchThreadMono⟩
  intro sa fa
  simp only [fetchThread]
  by_cases h : (searchConversation sa).isEmpty
  · simp only [h, if_true]
    match fetchSingleTweet fa with
    | some t => exact List.sorted_singleton t
    | none => exact List.sorted_nil
  · simpa [h] using sorted_searchConversation sa

/-- The monolithic resolver computes exactly what `search_conversation`
computes: the two code paths are line-for-line the same search loop. -/
theorem fetchThreadMono_eq_searchConversation (sa : List SearchAttempt) :
    fetchThreadMono sa = searchConversation sa := by
  induction sa with
  | nil => rfl
  | cons a rest ih =>
    simp only [fetchThreadMono, searchConversation]
    by_cases hTok : a.tokenOk = false
    · simp [hTok]
    · simp only [hTok, if_false]
      match a.resp with
      | .error _ => rfl
      | .ok r =>
        by_cases h200 : r.status = 200
        · simp [h200]
        · by_cases h429 : r.status = 429
          · simpa [h200, h429] using ih
          · simp [h200, h429]

/-- C2 (amended): when the conversation search returns zero results,
the modular resolver `ThreadManager.fetch_thread` returns the length-1
list holding the single fetched post, or the empty list exactly when
the single-post fetch fails; the monolithic `ThreadSmith.fetch_thread`
has no single-post fallback and returns the empty list. -/
theorem c2_zero_results_fallback :
    (∀ (sa : List SearchAttempt) (fa : List FetchAttempt),
        searchConversation sa = [] →
        fetchThread sa fa =
          (match fetchSingleTweet fa with
           | some t => [t]
           | none => [])) ∧
    (∀ sa : List SearchAttempt,
        searchConversation sa = [] → fetchThreadMono sa = []) := by
  constructor
  · intro sa fa h
    simp [fetchThread, h]
  · intro sa h
    rw [fetchThreadMono_eq_searchConversation]
    exact h

/-- A sample tweet used to instantiate the resolver theorems. -/
def wTweet : Tweet :=
  { id := "111", text := some "hello",
    author_id := some "42", author_username := some "alice",
    conversation_id := some "111", created_at := some "2024-01-01T00:00:00Z" }

/-- C2 witness: a search attempt stream ending in an HTTP-200 response
with zero results, and a single-post fetch that succeeds with `wTweet`;
the modular resolver returns exactly `[wTweet]`. -/
theorem c2_zero_results_fallback_witness :
    fetchThread [⟨true, .ok ⟨200, some []⟩⟩] [⟨true, .ok ⟨200, some wTweet⟩⟩]
      = [wTweet] := by
  have h := c2_zero_results_fallback.1
    [⟨true, .ok ⟨200, some []⟩⟩] [⟨true, .ok ⟨200, some wTweet⟩⟩] rfl
  simpa using h

/-- C2 counterexample: the monolithic `ThreadSmith.fetch_thread`, fed a
successful search response carrying zero results, returns the empty
list — not the promised length-1 list — so the claim fails for that
implementation of the resolver. -/
theorem c2_mono_counterexample :
    fetchThreadMono [⟨true, .ok ⟨200, some []⟩⟩] = [] ∧
    (fetchThreadMono [⟨true, .ok ⟨200, some []⟩⟩]).length ≠ 1 := by
  constructor
  · rfl
  · decide

/-- The C3 invariant for one tweet: its fields equal the query inputs. -/
def tweetMatches (cid aid : String) (t : Tweet) : Prop :=
  t.conversation_id = some cid ∧ t.author_id = some aid

/-- The search endpoint honors its query
`conversation_id:<cid> from:<aid> -is:retweet`: every tweet in any
`data` array it returns matches the queried conversation and author. -/
def searchHonest (cid aid : String) (sa : List SearchAttempt) : Prop :=
  ∀ a ∈ sa, ∀ r : SearchResp, a.resp = .ok r →
    ∀ ts, r.data = some ts → ∀ t ∈ ts, tweetMatches cid aid t

/-- The single-tweet endpoint, asked for the bookmarked post, returns a
post of the same conversation and author (the caller derived `cid` and
`aid` from that very post). -/
def fetchHonest (cid aid : String) (fa : List FetchAttempt) : Prop :=
  ∀ a ∈ fa, ∀ r : TweetResp, a.resp = .ok r →
    ∀ t, r.data = some t → tweetMatches cid aid t

/-- Any tweet in a `searchConversation` result came out of some 200
response's `data` array (the code adds no tweets of its own). -/
theorem mem_searchConversation {t : Tweet} :
    ∀ sa : List SearchAttempt, t ∈ searchConversation sa →
      ∃ a ∈ sa, ∃ r : SearchResp, ∃ ts,
        a.resp = .ok r ∧ r.data = some ts ∧ t ∈ ts := by
  intro sa
  induction sa with
  | nil => intro h; cases h
  | cons a rest ih =>
    intro ht
    simp only [searchConversation] at ht
    by_cases hTok : a.tokenOk = false
    · simp [hTok] at ht
    · simp only [hTok, if_false] at ht
      match hr : a.resp with
      | .error _ => rw [hr] at ht; cases ht
      | .ok r =>
        rw [hr] at ht
        by_cases h200 : r.status = 200
        · simp only [h200, if_true] at ht
          match hd : r.data with
          | some ts =>
            rw [hd] at ht
            refine ⟨a, List.mem_cons_self a rest, r, ts, hr, hd, ?_⟩
            exact ((List.perm_insertionSort tweetLE ts).mem_iff).mp ht
          | none => rw [hd] at ht; cases ht
        · by_cases h429 : r.status = 429
          · simp only [h200, h429, if_false, if_true] at ht
            obtain ⟨a', ha', r', ts', h1, h2, h3⟩ := ih ht
            exact ⟨a', List.mem_cons_of_mem a ha', r', ts', h1, h2, h3⟩
          · simp [h200, h429] at ht

/-- A tweet handed back by `fetchSingleTweet` came out of some 200
response's `data` field. -/
theorem fetchSingleTweet_some {t : Tweet} :
    ∀ fa : List FetchAttempt, fetchSingleTweet fa = some t →
      ∃ a ∈ fa, ∃ r : TweetResp, a.resp = .ok r ∧ r.data = some t := by
  intro fa
  induction fa with
  | nil => intro h; cases h
  | cons a rest ih =>
    intro ht
    simp only [fetchSingleTweet] at ht
    by_cases hTok : a.tokenOk = false
    · simp [hTok] at ht
    · simp only [hTok, if_false] at ht
      match hr : a.resp with
      | .error _ => rw [hr] at ht; cases ht
      | .ok r =>
        rw [hr] at ht
        by_cases h200 : r.status = 200
        · simp only [h200, if_true] at ht
          exact ⟨a, List.mem_cons_self a rest, r, hr, ht⟩
        · by_cases h429 : r.status = 429
          · simp only [h200, h429, if_false, if_true] at ht
            obtain ⟨a', ha', r', h1, h2⟩ := ih ht
            exact ⟨a', List.mem_cons_of_mem a ha', r', h1, h2⟩
          · simp [h200, h429] at ht

/-- C3: when the search endpoint honors the query and the single-post
endpoint returns the bookmarked post, every post of a thread resolved
by `ThreadManager.fetch_thread` carries the input `conversation_id` and
the input `author_id`. -/
theorem c3_resolved_thread_invariant (cid aid : String)
    (sa : List SearchAttempt) (fa : List FetchAttempt)
    (hs : searchHonest cid aid sa) (hf : fetchHonest cid aid fa) :
    ∀ t ∈ fetchThread sa fa, tweetMatches cid aid t := by
  intro t ht
  simp only [fetchThread] at ht
  by_cases hEmpty : (searchConversation sa).isEmpty
  · simp only [hEmpty, if_true] at ht
    match hft : fetchSingleTweet fa with
    | some t' =>
      rw [hft] at ht
      obtain ⟨a, ha, r, h1, h2⟩ := fetchSingleTweet_some fa hft
      have : t = t' := List.mem_singleton.mp ht
      subst this
      exact hf a ha r h1 t h2
    | none => rw [hft] at ht; cases ht
  · simp only [hEmpty, if_false] at ht
    obtain ⟨a, ha, r, ts, h1, h2, h3⟩ := mem_searchConversation sa ht
    exact hs a ha r h1 ts h2 t h3

/-- C3 witness: a concrete successful search for conversation `"111"`
by author `"42"` returning `wTweet`; the resolved thread's only post
matches the inputs. -/
theorem c3_resolved_thread_invariant_witness :
    tweetMatches "111" "42" wTweet := by
  refine c3_resolved_thread_invariant "111" "42"
    [⟨true, .ok ⟨200, some [wTweet]⟩⟩] [] ?_ ?_ wTweet ?_
  · intro a ha r hresp ts hts t htm
    rw [List.mem_singleton] at ha
    subst ha
    cases hresp
    cases hts
    rw [List.mem_singleton] at htm
    subst htm
    exact ⟨rfl, rfl⟩
  · intro a ha
    cases ha
  · decide

/-- Mutable state of `TwitterClient` (twitter_client.py 22-29):
access and refresh tokens from the config dict, the one-shot
`just_refreshed_token` flag, the per-endpoint `rate_limit_reset` map
(an association list keyed by endpoint), and `last_api_call`. -/
structure ClientState where
  accessToken : String
  refreshToken : Option String
  justRefreshedToken : Bool
  rateLimitReset : List (String × Nat)
  lastApiCall : Nat
deriving DecidableEq

/-- The constant `self.min_delay = 900` — 15 minutes for the free tier. -/
def minDelay : Nat := 900

/-- Lookup in the `rate_limit_reset` dict (`endpoint_key in self.rate_limit_reset`). -/
def lookupReset (key : String) : List (String × Nat) → Option Nat
  | [] => none
  | p :: rest => if p.1 = key then some p.2 else lookupReset key rest

/-- Embedding of `del self.rate_limit_reset[endpoint_key]`. -/
def eraseReset (key : String) (l : List (String × Nat)) : List (String × Nat) :=
  l.filter (fun p => !(p.1 == key))

theorem lookupReset_eraseReset (key : String) (l : List (String × Nat)) :
    lookupReset key (eraseReset key l) = none := by
  induction l with
  | nil => rfl
  | cons p rest ih =>
    simp only [eraseReset, List.filter_cons] at *
    by_cases h : p.1 = key
    · simpa [h] using ih
    · simpa [lookupReset, h] using ih

/-- The fixed-interval fallback half of `_rate_limit_wait`
(twitter_client.py 120-129): enforce `min_delay` since the last call,
then stamp `last_api_call`.  Returns the new state and the epoch time
at which the call returns. -/
def rateLimitFallback (s : ClientState) (now : Nat) : ClientState × Nat :=
  if 0 < s.lastApiCall ∧ now - s.lastApiCall < minDelay then
    ({ s with lastApiCall := s.lastApiCall + minDelay }, s.lastApiCall + minDelay)
  else
    ({ s with lastApiCall := now }, now)

/-- Embedding of `TwitterClient._rate_limit_wait` (twitter_client.py 103-129): if a
reset time is stored for the endpoint and lies in the future, sleep
until it, delete the stored entry and stamp `last_api_call`; otherwise
fall through — without deleting anything — to the fixed-interval
fallback.  Returns the new state and the return time. -/
def rateLimitWait (s : ClientState) (key : String) (now : Nat) : ClientState × Nat :=
  match lookupReset key s.rateLimitReset with
  | some reset =>
    if now < reset then
      ({ s with rateLimitReset := eraseReset key s.rateLimitReset,
                lastApiCall := reset }, reset)
    else rateLimitFallback s now
  | none => rateLimitFallback s now

/-- The fallback never returns before `now`. -/
theorem rateLimitFallback_time_ge (s : ClientState) (now : Nat) :
    now ≤ (rateLimitFallback s now).2 := by
  by_cases h : 0 < s.lastApiCall ∧ now - s.lastApiCall < minDelay
  · rw [rateLimitFallback, if_pos h]
    have h2 := h.2
    show now ≤ s.lastApiCall + minDelay
    omega
  · rw [rateLimitFallback, if_neg h]

/-- C4 (amended): an `acquire` (`_rate_limit_wait`) call on a key with
a stored quota reset time never returns before that reset time, and —
when the reset time still lies in the future at call time — returns
exactly at the reset time with the stored entry cleared.  (A reset time
already in the past is left stored; only the fixed-interval fallback
runs then.) -/
theorem c4_acquire_reset (s : ClientState) (key : String) (now reset : Nat)
    (h : lookupReset key s.rateLimitReset = some reset) :
    reset ≤ (rateLimitWait s key now).2 ∧
    (now < reset →
      (rateLimitWait s key now).2 = reset ∧
      lookupReset key (rateLimitWait s key now).1.rateLimitReset = none) := by
  simp only [rateLimitWait, h]
  by_cases hlt : now < reset
  · rw [if_pos hlt]
    exact ⟨le_refl reset, fun _ => ⟨rfl, lookupReset_eraseReset key s.rateLimitReset⟩⟩
  · rw [if_neg hlt]
    refine ⟨?_, fun hc => absurd hc hlt⟩
    have hge := rateLimitFallback_time_ge s now
    omega

/-- C4 witness: a reset time 5 seconds in the future (stored reset 105,
now 100): the call returns exactly at 105 and the entry is cleared. -/
theorem c4_acquire_reset_witness :
    105 ≤ (rateLimitWait ⟨"tok", none, false, [("search", 105)], 0⟩ "search" 100).2 ∧
    (rateLimitWait ⟨"tok", none, false, [("search", 105)], 0⟩ "search" 100).2 = 105 ∧
    lookupReset "search"
      (rateLimitWait ⟨"tok", none, false, [("search", 105)], 0⟩ "search" 100).1.rateLimitReset
      = none := by
  have h := c4_acquire_reset ⟨"tok", none, false, [("search", 105)], 0⟩
    "search" 100 105 (by decide)
  exact ⟨h.1, (h.2 (by decide)).1, (h.2 (by decide)).2⟩

/-- C4 counterexample: with a stored reset time already in the past
(reset 5, now 10), the call returns from the fallback path and the
stale reset time is still stored afterward — the claim's "no reset time
remains stored for that key after the call" fails. -/
theorem c4_stale_reset_counterexample :
    (rateLimitWait ⟨"tok", none, false, [("search", 5)], 0⟩ "search" 10).2 = 10 ∧
    lookupReset "search"
      (rateLimitWait ⟨"tok", none, false, [("search", 5)], 0⟩ "search" 10).1.rateLimitReset
      = some 5 := by
  constructor <;> decide

/-- One response of the OAuth2 token endpoint: status code, the new
access token, and an optionally rotated refresh token. -/
structure RefreshResp where
  status : Nat
  access_token : String
  refresh_token : Option String
deriving DecidableEq

/-- Embedding of `TwitterClient._refresh_access_token` (twitter_client.py 55-92): no
refresh token configured → `False`; raised exception → `False`;
HTTP 200 → store the new access token, keep or rotate the refresh
token, set the one-shot `just_refreshed_token` flag, return `True`;
any other status → `False`. -/
def refreshAccessToken (s : ClientState) (resp : Except Unit RefreshResp) :
    Bool × ClientState :=
  match s.refreshToken with
  | none => (false, s)
  | some _ =>
    match resp with
    | .error _ => (false, s)
    | .ok r =>
      if r.status = 200 then
        (true,
          { s with
            accessToken := r.access_token,
            refreshToken :=
              match r.refresh_token with
              | some rt => some rt
              | none => s.refreshToken,
            justRefreshedToken := true })
      else (false, s)

/-- Embedding of `TwitterClient._check_and_refresh_token` (twitter_client.py 31-53).
`probe` is the outcome of the `users/me` identity probe (`Except.error`
= raised exception, `Except.ok st` = response with status `st`);
`refreshResp` is the token-endpoint outcome consumed only when the
probe reports 401.  Returns (result, new state, whether the identity
probe was issued). -/
def checkAndRefreshToken (s : ClientState) (probe : Except Unit Nat)
    (refreshResp : Except Unit RefreshResp) : Bool × ClientState × Bool :=
  match s.refreshToken with
  | none => (true, s, false)
  | some _ =>
    if s.justRefreshedToken then
      (true, { s with justRefreshedToken := false }, false)
    else
      match probe with
      | .error _ => (true, s, true)
      | .ok status =>
        if status = 200 then (true, s, true)
        else if status = 401 then
          ((refreshAccessToken s refreshResp).1,
           (refreshAccessToken s refreshResp).2, true)
        else (true, s, true)

/-- A token-endpoint outcome that makes `_refresh_access_token` fail:
either the request raised, or the endpoint answered with a non-200
status (an explicit rejection). -/
def refreshFailed : Except Unit RefreshResp → Prop
  | .error _ => True
  | .ok r => r.status ≠ 200

/-- With a refresh token configured, `_refresh_access_token` returns
`False` precisely when the token-endpoint call failed. -/
theorem refreshAccessToken_false_iff (s : ClientState)
    (r : Except Unit RefreshResp) (h1 : s.refreshToken ≠ none) :
    (refreshAccessToken s r).1 = false ↔ refreshFailed r := by
  match hrt : s.refreshToken with
  | none => exact absurd hrt h1
  | some tok =>
    match r with
    | .error e => simp [refreshAccessToken, hrt, refreshFailed]
    | .ok rr =>
      by_cases hs2 : rr.status = 200
      · simp [refreshAccessToken, hrt, hs2, refreshFailed]
      · simp [refreshAccessToken, hrt, hs2, refreshFailed]

/-- A successful refresh leaves the one-shot flag set and a refresh
token still configured. -/
theorem refresh_success_state (s : ClientState) (rr : Except Unit RefreshResp)
    (hok : (refreshAccessToken s rr).1 = true) :
    (refreshAccessToken s rr).2.justRefreshedToken = true ∧
    (refreshAccessToken s rr).2.refreshToken ≠ none := by
  match hrt : s.refreshToken with
  | none => simp [refreshAccessToken, hrt] at hok
  | some tok =>
    match rr with
    | .error e => simp [refreshAccessToken, hrt] at hok
    | .ok rx =>
      by_cases h200 : rx.status = 200
      · constructor
        · simp [refreshAccessToken, hrt, h200]
        · match hrtk : rx.refresh_token with
          | some rt2 => simp [refreshAccessToken, hrt, h200, hrtk]
          | none => simp [refreshAccessToken, hrt, h200, hrtk]
      · simp [refreshAccessToken, hrt, h200] at hok

/-- With a refresh token configured and the one-shot flag set, the
validity check consumes the flag: it returns `True`, skips the probe,
and clears the flag. -/
theorem check_consumes_flag (s : ClientState) (p : Except Unit Nat)
    (r : Except Unit RefreshResp) (h1 : s.refreshToken ≠ none)
    (h2 : s.justRefreshedToken = true) :
    checkAndRefreshToken s p r =
      (true, { s with justRefreshedToken := false }, false) := by
  match hrt : s.refreshToken with
  | none => exact absurd hrt h1
  | some tok => simp [checkAndRefreshToken, hrt, h2]

/-- With a refresh token configured and the one-shot flag clear, the
validity check issues the identity probe. -/
theorem check_issues_probe (s : ClientState) (p : Except Unit Nat)
    (r : Except Unit RefreshResp) (h1 : s.refreshToken ≠ none)
    (h2 : s.justRefreshedToken = false) :
    (checkAndRefreshToken s p r).2.2 = true := by
  match hrt : s.refreshToken with
  | none => exact absurd hrt h1
  | some tok =>
    match p with
    | .error e => simp [checkAndRefreshToken, hrt, h2]
    | .ok status =>
      by_cases h200 : status = 200
      · simp [checkAndRefreshToken, hrt, h2, h200]
      · by_cases h401 : status = 401
        · simp [checkAndRefreshToken, hrt, h2, h200, h401]
        · simp [checkAndRefreshToken, hrt, h2, h200, h401]

/-- C5 (amended): the credential guard returns `True` whenever no
refresh token is configured, and returns `False` exactly when a
refresh was attempted (refresh token configured, one-shot flag clear,
probe answered 401) and that refresh failed — by explicit rejection
*or by a raised network error during the refresh call*.  Probe-level
failures alone never yield `False`. -/
theorem c5_guard_result :
    (∀ (s : ClientState) (p : Except Unit Nat) (r : Except Unit RefreshResp),
        s.refreshToken = none → (checkAndRefreshToken s p r).1 = true) ∧
    (∀ (s : ClientState) (p : Except Unit Nat) (r : Except Unit RefreshResp),
        (checkAndRefreshToken s p r).1 = false ↔
          (s.refreshToken ≠ none ∧ s.justRefreshedToken = false ∧
           p = .ok 401 ∧ refreshFailed r)) := by
  constructor
  · intro s p r h
    simp [checkAndRefreshToken, h]
  · intro s p r
    constructor
    · intro hfalse
      match hrt : s.refreshToken with
      | none => simp [checkAndRefreshToken, hrt] at hfalse
      | some tok =>
        have hne : s.refreshToken ≠ none := by rw [hrt]; simp
        match hjr : s.justRefreshedToken with
        | true => simp [checkAndRefreshToken, hrt, hjr] at hfalse
        | false =>
          match p with
          | .error e => simp [checkAndRefreshToken, hrt, hjr] at hfalse
          | .ok status =>
            by_cases h200 : status = 200
            · simp [checkAndRefreshToken, hrt, hjr, h200] at hfalse
            · by_cases h401 : status = 401
              · subst h401
                simp only [checkAndRefreshToken, hrt, hjr] at hfalse
                norm_num at hfalse
                exact ⟨by simp, rfl, rfl,
                  (refreshAccessToken_false_iff s r hne).mp hfalse⟩
              · simp [checkAndRefreshToken, hrt, hjr, h200, h401] at hfalse
    · rintro ⟨hrt, hjr, hp, hrf⟩
      subst hp
      match hrt2 : s.refreshToken with
      | none => exact absurd hrt2 hrt
      | some tok =>
        have hb := (refreshAccessToken_false_iff s r hrt).mpr hrf
        simp [checkAndRefreshToken, hrt2, hjr, hb]

/-- C5 witness: refresh token configured, flag clear, probe answers
401 and the refresh call raises a network error — the guard returns
`False`. -/
theorem c5_guard_result_witness :
    (checkAndRefreshToken ⟨"tok", some "rt", false, [], 0⟩
      (.ok 401) (.error ())).1 = false := by
  exact (c5_guard_result.2 ⟨"tok", some "rt", false, [], 0⟩
    (.ok 401) (.error ())).mpr ⟨by simp, rfl, rfl, trivial⟩

/-- C5 counterexample: at this input the guard returns `False`, yet no
explicit rejection by the token endpoint happened — the refresh call
raised a network error — so "false only when a refresh was attempted
and explicitly rejected by the token endpoint" is false as stated. -/
theorem c5_network_error_counterexample :
    ¬ ((checkAndRefreshToken ⟨"tok", some "rt", false, [], 0⟩
          (.ok 401) (.error ())).1 = false →
        ∃ rr : RefreshResp,
          (Except.error () : Except Unit RefreshResp) = .ok rr ∧
          rr.status ≠ 200) := by
  intro h
  obtain ⟨rr, hrr, _⟩ := h (by decide)
  cases hrr

/-- C8: a successful token refresh sets the one-shot flag; exactly the
next validity check consumes it — it returns `True` without issuing
the identity probe and clears the flag — and the check after that
issues the probe again.  The flag never suppresses more than one
probe per refresh. -/
theorem c8_one_shot_flag (s : ClientState) (rr : Except Unit RefreshResp)
    (p r p' r' : _) (hok : (refreshAccessToken s rr).1 = true) :
    (refreshAccessToken s rr).2.justRefreshedToken = true ∧
    (checkAndRefreshToken (refreshAccessToken s rr).2 p r).1 = true ∧
    (checkAndRefreshToken (refreshAccessToken s rr).2 p r).2.2 = false ∧
    (checkAndRefreshToken (refreshAccessToken s rr).2 p r).2.1.justRefreshedToken
      = false ∧
    (checkAndRefreshToken
      (checkAndRefreshToken (refreshAccessToken s rr).2 p r).2.1 p' r').2.2
      = true := by
  obtain ⟨hflag, hrtne⟩ := refresh_success_state s rr hok
  have hB := check_consumes_flag (refreshAccessToken s rr).2 p r hrtne hflag
  rw [hB]
  refine ⟨hflag, rfl, rfl, rfl, ?_⟩
  exact check_issues_probe _ p' r' hrtne rfl

/-- C8 witness: a concrete successful refresh (HTTP 200, rotated
refresh token) followed by two validity checks with 200-probes. -/
theorem c8_one_shot_flag_witness :
    ((checkAndRefreshToken
        (refreshAccessToken ⟨"old", some "rt", false, [], 0⟩
          (.ok ⟨200, "new", some "rt2"⟩)).2 (.ok 200) (.error ())).2.2 = false) ∧
    ((checkAndRefreshToken
        (checkAndRefreshToken
          (refreshAccessToken ⟨"old", some "rt", false, [], 0⟩
            (.ok ⟨200, "new", some "rt2"⟩)).2 (.ok 200) (.error ())).2.1
        (.ok 200) (.error ())).2.2 = true) := by
  have h := c8_one_shot_flag ⟨"old", some "rt", false, [], 0⟩
    (.ok ⟨200, "new", some "rt2"⟩) (.ok 200) (.error ()) (.ok 200) (.error ())
    (by decide)
  exact ⟨h.2.2.1, h.2.2.2.2⟩

/-- Python truthiness of an optional string (`if author_username:`):
`None` and the empty string are falsy. -/
def truthyOpt : Option String → Bool
  | none => false
  | some s => !s.isEmpty

/-- Blocks of `ThreadManager.reconstruct_thread_text` (thread_manager.py 54-72):
`"Tweet i:\n<text>"` blocks joined by blank lines, with 1-based
enumeration. -/
def textParts (i : Nat) : List Tweet → List String
  | [] => []
  | t :: rest =>
    ("Tweet " ++ toString i ++ ":\n" ++ t.text.getD "") :: textParts (i + 1) rest

/-- Embedding of `ThreadManager.reconstruct_thread_text`: empty input renders to the
empty string. -/
def reconstructThreadText (tweets : List Tweet) : String :=
  if tweets.isEmpty then ""
  else String.intercalate "\n\n" (textParts 1 tweets)

/-- Python `str.strip()`: drop whitespace from both ends.  (Equivalent
to `String.trim`, but defined by structural recursion so that concrete
renderings evaluate inside the kernel.) -/
def pyStrip (s : String) : String :=
  String.mk (((s.data.dropWhile Char.isWhitespace).reverse.dropWhile
    Char.isWhitespace).reverse)

/-- The per-tweet parts of `reconstruct_thread_markdown`
(thread_manager.py 94-102): `enumerate(tweets, 1)` with the total
thread length `n` deciding whether the bold ordinal marker `**i/**` is
prepended. -/
def markdownParts (n i : Nat) : List Tweet → List String
  | [] => []
  | t :: rest =>
    (if 1 < n then "**" ++ toString i ++ "/**\n" ++ pyStrip (t.text.getD "")
     else pyStrip (t.text.getD "")) :: markdownParts n (i + 1) rest

/-- Embedding of `ThreadManager.reconstruct_thread_markdown` (thread_manager.py
74-104): optional `# Thread by @<author>` header part (with a trailing
newline of its own), then one part per tweet, joined by blank lines. -/
def reconstructThreadMarkdown (tweets : List Tweet)
    (author_username : Option String) : String :=
  if tweets.isEmpty then ""
  else
    let header : List String :=
      if truthyOpt author_username then
        ["# Thread by @" ++ author_username.getD "" ++ "\n"]
      else []
    String.intercalate "\n\n" (header ++ markdownParts tweets.length 1 tweets)

theorem markdownParts_length (n : Nat) :
    ∀ (tweets : List Tweet) (i : Nat), (markdownParts n i tweets).length = tweets.length := by
  intro tweets
  induction tweets with
  | nil => intro i; rfl
  | cons t rest ih =>
    intro i
    simp only [markdownParts, List.length_cons, ih]

theorem markdownParts_getD (n : Nat) :
    ∀ (tweets : List Tweet) (i j : Nat) (hj : j < tweets.length), 1 < n →
      (markdownParts n i tweets).getD j "" =
        "**" ++ toString (i + j) ++ "/**\n" ++
          pyStrip ((tweets.get ⟨j, hj⟩).text.getD "") := by
  intro tweets
  induction tweets with
  | nil => intro i j hj; cases hj
  | cons t rest ih =>
    intro i j hj hn
    match j with
    | 0 => simp [markdownParts, hn]
    | j' + 1 =>
      have hj' : j' < rest.length := by
        simpa [Nat.succ_lt_succ_iff] using hj
      have := ih (i + 1) j' hj' hn
      simp only [markdownParts, List.getD_cons_succ, List.get]
      rw [this]
      have : i + 1 + j' = i + (j' + 1) := by omega
      rw [this]

/-- C6 (amended): a 1-post thread renders with no ordinal marker (just
the stripped text, after the optional `# Thread by @<author>` header),
and an N-post thread with N > 1 renders as the optional header followed
by exactly N blocks where block i is the bold ordinal marker `**i/**`,
a newline, and the stripped text of post i — the markers `1/`, ...,
`N/` appear in order inside the `**`...`**` bold wrapper. -/
theorem c6_markdown_blocks :
    (∀ (t : Tweet) (u : Option String),
        reconstructThreadMarkdown [t] u =
          String.intercalate "\n\n"
            ((if truthyOpt u then ["# Thread by @" ++ u.getD "" ++ "\n"] else [])
              ++ [pyStrip (t.text.getD "")])) ∧
    (∀ (tweets : List Tweet) (u : Option String), 1 < tweets.length →
        reconstructThreadMarkdown tweets u =
          String.intercalate "\n\n"
            ((if truthyOpt u then ["# Thread by @" ++ u.getD "" ++ "\n"] else [])
              ++ markdownParts tweets.length 1 tweets) ∧
        (markdownParts tweets.length 1 tweets).length = tweets.length ∧
        ∀ (j : Nat) (hj : j < tweets.length),
          (markdownParts tweets.length 1 tweets).getD j "" =
            "**" ++ toString (j + 1) ++ "/**\n" ++
              pyStrip ((tweets.get ⟨j, hj⟩).text.getD "")) := by
  constructor
  · intro t u
    simp [reconstructThreadMarkdown, markdownParts]
  · intro tweets u hn
    have hne : tweets.isEmpty = false := by
      cases tweets with
      | nil => cases hn
      | cons t rest => rfl
    refine ⟨?_, markdownParts_length tweets.length tweets 1, ?_⟩
    · rw [reconstructThreadMarkdown, hne]
      simp
    · intro j hj
      rw [markdownParts_getD tweets.length tweets 1 j hj hn]
      have : 1 + j = j + 1 := by omega
      rw [this]

/-- C6 witness: a concrete 3-post thread with an author renders as the
header plus blocks `**1/**`, `**2/**`, `**3/**` in order. -/
theorem c6_markdown_blocks_witness :
    reconstructThreadMarkdown
      [{ id := "1", text := some "a", author_id := none, author_username := none,
         conversation_id := none, created_at := none },
       { id := "2", text := some "b", author_id := none, author_username := none,
         conversation_id := none, created_at := none },
       { id := "3", text := some "c", author_id := none, author_username := none,
         conversation_id := none, created_at := none }] (some "alice") =
      "# Thread by @alice\n\n\n**1/**\na\n\n**2/**\nb\n\n**3/**\nc" := by
  have h := (c6_markdown_blocks.2
    [{ id := "1", text := some "a", author_id := none, author_username := none,
       conversation_id := none, created_at := none },
     { id := "2", text := some "b", author_id := none, author_username := none,
       conversation_id := none, created_at := none },
     { id := "3", text := some "c", author_id := none, author_username := none,
       conversation_id := none, created_at := none }] (some "alice")
    (by decide)).1
  rw [h]
  decide

/-- C6 counterexample: in a 2-post thread the rendering's blocks are
not literally prefixed by the bare ordinal markers `1/`, `2/` — the
rendering opens with `**` (the bold wrapper), not with `1/`. -/
theorem c6_bare_marker_counterexample :
    reconstructThreadMarkdown
      [{ id := "1", text := some "a", author_id := none, author_username := none,
         conversation_id := none, created_at := none },
       { id := "2", text := some "b", author_id := none, author_username := none,
         conversation_id := none, created_at := none }] none
      = "**1/**\na\n\n**2/**\nb" ∧
    (reconstructThreadMarkdown
      [{ id := "1", text := some "a", author_id := none, author_username := none,
         conversation_id := none, created_at := none },
       { id := "2", text := some "b", author_id := none, author_username := none,
         conversation_id := none, created_at := none }] none).data.take 2
      ≠ "1/".data := by
  constructor
  · decide
  · decide

/-- The metadata dictionary built by
`ThreadManager.build_thread_metadata` (thread_manager.py 134-171). -/
structure ThreadMetadata where
  tweet_id : String
  conversation_id : String
  author_id : String
  author_username : String
  tweet_count : Nat
  first_tweet_time : Option String
  last_tweet_time : Option String
  url : String
  tweets : List Tweet
deriving DecidableEq

/-- Embedding of `ThreadManager.build_thread_metadata`: empty input yields the empty
dictionary (`none`); otherwise the fields are filled from the first and
last tweets, the caller-supplied username argument taking precedence
over the first tweet's `author_username` key, with final fallback
`"unknown"`, and `conversation_id` falling back to the bookmarked
tweet ID. -/
def buildThreadMetadata (tweets : List Tweet) (tweet_id : String)
    (author_username : Option String) : Option ThreadMetadata :=
  match tweets with
  | [] => none
  | first :: rest =>
    let last := (first :: rest).getLast (List.cons_ne_nil first rest)
    let username :=
      if truthyOpt author_username = false then
        match first.author_username with
        | some v => v
        | none => "unknown"
      else author_username.getD ""
    some
      { tweet_id := tweet_id
        conversation_id := first.conversation_id.getD tweet_id
        author_id := first.author_id.getD "unknown"
        author_username := username
        tweet_count := (first :: rest).length
        first_tweet_time := first.created_at
        last_tweet_time := last.created_at
        url := "https://x.com/" ++ username ++ "/status/" ++ tweet_id
        tweets := first :: rest }

/-- C7 (amended): on a non-empty thread, `build_thread_metadata` fills
`conversation_id` from the first post (falling back to the bookmarked
tweet ID when absent), `author_id` from the first post (fallback
`"unknown"`), `author_username` from the caller-supplied argument when
truthy and otherwise from the first post (fallback `"unknown"`),
`tweet_count` as the thread length, first/last tweet times as the
`created_at` of the first and last posts, and the url as
`https://x.com/<author_username>/status/<post_id>`. -/
theorem c7_metadata_fields (first : Tweet) (rest : List Tweet)
    (tid : String) (arg : Option String) :
    ∃ md : ThreadMetadata,
      buildThreadMetadata (first :: rest) tid arg = some md ∧
      md.tweet_id = tid ∧
      md.conversation_id = first.conversation_id.getD tid ∧
      md.author_id = first.author_id.getD "unknown" ∧
      md.author_username =
        (if truthyOpt arg then arg.getD ""
         else first.author_username.getD "unknown") ∧
      md.tweet_count = (first :: rest).length ∧
      md.first_tweet_time = first.created_at ∧
      md.last_tweet_time =
        ((first :: rest).getLast (List.cons_ne_nil first rest)).created_at ∧
      md.url = "https://x.com/" ++ md.author_username ++ "/status/" ++ tid ∧
      md.tweets = first :: rest := by
  refine ⟨_, rfl, rfl, rfl, rfl, ?_, rfl, rfl, rfl, rfl, rfl⟩
  cases harg : truthyOpt arg
  · cases hau : first.author_username <;> simp [harg, hau]
  · simp [harg]

/-- A sample first tweet for the C7 corner cases: it has an author
username of its own and no `conversation_id` key. -/
def exFirst : Tweet :=
  { id := "p1", text := some "hello", author_id := some "42",
    author_username := some "bob", conversation_id := none,
    created_at := some "2024-01-01T00:00:00Z" }

/-- C7 counterexample: with a caller-supplied username `"alice"` and a
first post authored by `"bob"`, the metadata carries `"alice"` — the
username is *not* derived from the thread's first post — and with the
first post lacking a `conversation_id` key the metadata falls back to
the bookmarked tweet ID `"999"` rather than a first-post value. -/
theorem c7_argument_precedence_counterexample :
    ∃ md : ThreadMetadata,
      buildThreadMetadata [exFirst] "999" (some "alice") = some md ∧
      md.author_username = "alice" ∧
      exFirst.author_username = some "bob" ∧
      md.author_username ≠ "bob" ∧
      exFirst.conversation_id = none ∧
      md.conversation_id = "999" := by
  refine ⟨_, rfl, by decide, rfl, by decide, rfl, by decide⟩

/-- C7 witness: applying the field characterization at a concrete
1-post thread with no caller-supplied username: every field falls out
of the first post.  (The `∃` is instantiated by the theorem itself.) -/
theorem c7_metadata_fields_witness :
    ∃ md : ThreadMetadata,
      buildThreadMetadata [exFirst] "p1" none = some md ∧
      md.tweet_id = "p1" ∧
      md.conversation_id = exFirst.conversation_id.getD "p1" ∧
      md.author_id = exFirst.author_id.getD "unknown" ∧
      md.author_username =
        (if truthyOpt none then (none : Option String).getD ""
         else exFirst.author_username.getD "unknown") ∧
      md.tweet_count = [exFirst].length ∧
      md.first_tweet_time = exFirst.created_at ∧
      md.last_tweet_time =
        ([exFirst].getLast (List.cons_ne_nil exFirst [])).created_at ∧
      md.url = "https://x.com/" ++ md.author_username ++ "/status/" ++ "p1" ∧
      md.tweets = [exFirst] :=
  c7_metadata_fields exFirst [] "p1" none

/-- C9: on the empty post list every thread-consuming operation is
total and returns its empty value: both renderings return the empty
string and the metadata builder returns the empty dictionary (`none`)
without ever indexing into the list. -/
theorem c9_empty_inputs_total :
    reconstructThreadText [] = "" ∧
    (∀ u : Option String, reconstructThreadMarkdown [] u = "") ∧
    (∀ (tid : String) (u : Option String), buildThreadMetadata [] tid u = none) :=
  ⟨rfl, fun _ => rfl, fun _ _ => rfl⟩

/-- Embedding of `set.add` on the processed-ID set (modelled as a duplicate-free
list): `self.processed_tweets.add(tweet_id)`. -/
def addProcessed (tid : String) (processed : List String) : List String :=
  if tid ∈ processed then processed else tid :: processed

/-- Embedding of `ThreadStorage.save_thread` (storage.py 66-115) with
`ThreadStorage.mark_processed` (storage.py 61-64) inlined.  `tweet_id`,
`author_username` come from the metadata dict (`None` when the key is
absent); `markdown` is the optional markdown content; `jsonW`, `mdW`
and `procW` are the outcomes of the three file writes (thread JSON,
thread markdown, processed-ID file), `Except.error` standing for a
raised `IOError`.  Returns the saved JSON filename (or `none`) and the
new in-memory processed set. -/
def saveThread (processed : List String)
    (tweet_id author_username markdown : Option String)
    (jsonW mdW procW : Except Unit Unit) : Option String × List String :=
  if truthyOpt tweet_id = false then (none, processed)
  else
    let tid := tweet_id.getD ""
    let base := author_username.getD "unknown" ++ "_" ++ tid
    match jsonW with
    | .error _ => (none, processed)
    | .ok _ =>
      match (if truthyOpt markdown then mdW else .ok ()) with
      | .error _ => (none, processed)
      | .ok _ =>
        let processed2 := addProcessed tid processed
        match procW with
        | .error _ => (none, processed2)
        | .ok _ => (some (base ++ ".json"), processed2)

theorem mem_addProcessed {x tid : String} {processed : List String}
    (hx : x ∈ addProcessed tid processed) (hnx : x ∉ processed) : x = tid := by
  rw [addProcessed] at hx
  by_cases h : tid ∈ processed
  · rw [if_pos h] at hx
    exact absurd hx hnx
  · rw [if_neg h] at hx
    cases List.mem_cons.mp hx with
    | inl he => exact he
    | inr hm => exact absurd hm hnx

/-- C10: `save_thread` is atomic with respect to the processed-ID set:
if the JSON write raises, or the markdown write is attempted and
raises, the call returns `None` and the processed set is unchanged; and
any ID newly present in the processed set after the call implies the
JSON write (and the markdown write, when attempted) succeeded and the
ID is the metadata's tweet ID. -/
theorem c10_save_thread_atomic (processed : List String)
    (tweet_id au md : Option String) (jsonW mdW procW : Except Unit Unit) :
    (jsonW = .error () →
      saveThread processed tweet_id au md jsonW mdW procW = (none, processed)) ∧
    (truthyOpt md = true → mdW = .error () →
      saveThread processed tweet_id au md jsonW mdW procW = (none, processed)) ∧
    (∀ x, x ∈ (saveThread processed tweet_id au md jsonW mdW procW).2 →
      x ∉ processed →
      jsonW = .ok () ∧ (truthyOpt md = true → mdW = .ok ()) ∧
      truthyOpt tweet_id = true ∧ x = tweet_id.getD "") := by
  refine ⟨?_, ?_, ?_⟩
  · intro hj
    subst hj
    cases htid : truthyOpt tweet_id <;> simp [saveThread, htid]
  · intro hmd hw
    subst hw
    cases htid : truthyOpt tweet_id
    · simp [saveThread, htid]
    · cases jsonW with
      | error e => simp [saveThread, htid]
      | ok v => simp [saveThread, htid, hmd]
  · intro x hx hnx
    cases htid : truthyOpt tweet_id
    · simp [saveThread, htid] at hx
      exact absurd hx hnx
    · cases jsonW with
      | error e =>
        simp [saveThread, htid] at hx
        exact absurd hx hnx
      | ok v =>
        cases hmdt : truthyOpt md
        · cases procW with
          | error e2 =>
            simp [saveThread, htid, hmdt] at hx
            exact ⟨rfl, fun hc => absurd hc (by simp [hmdt]), rfl,
              mem_addProcessed hx hnx⟩
          | ok v2 =>
            simp [saveThread, htid, hmdt] at hx
            exact ⟨rfl, fun hc => absurd hc (by simp [hmdt]), rfl,
              mem_addProcessed hx hnx⟩
        · cases mdW with
          | error e3 =>
            simp [saveThread, htid, hmdt] at hx
            exact absurd hx hnx
          | ok v3 =>
            cases procW with
            | error e2 =>
              simp [saveThread, htid, hmdt] at hx
              exact ⟨rfl, fun _ => rfl, rfl, mem_addProcessed hx hnx⟩
            | ok v2 =>
              simp [saveThread, htid, hmdt] at hx
              exact ⟨rfl, fun _ => rfl, rfl, mem_addProcessed hx hnx⟩

/-- C10 witness: a failing JSON write on a fresh store returns `None`
with the processed set untouched; and after a fully successful save of
tweet `"111"`, the one new processed ID is exactly `"111"`. -/
theorem c10_save_thread_atomic_witness :
    (saveThread [] (some "111") (some "alice") (some "md")
      (.error ()) (.ok ()) (.ok ()) = (none, [])) ∧
    ("111" = (some "111" : Option String).getD "") := by
  constructor
  · exact (c10_save_thread_atomic [] (some "111") (some "alice") (some "md")
      (.error ()) (.ok ()) (.ok ())).1 rfl
  · exact ((c10_save_thread_atomic [] (some "111") (some "alice") none
      (.ok ()) (.error ()) (.ok ())).2.2 "111" (by decide) (by decide)).2.2.2

end ThreadSmith
